import Mathlib

set_option linter.unusedVariables false

/-
Verification development for the fluxfox floppy-disk image library core
(src/trackdata.rs and src/diskimage.rs).

Translation conventions:
* Rust machine integers (u8, u16, usize) are modelled as Nat; an explicit
  `% 256` appears where a genuine truncating cast (`as u8`) occurs in the
  source.  All other arithmetic in the translated paths stays well below the
  machine-width bounds, except for usize subtraction, which is noted where the
  Rust source could underflow-panic (Nat subtraction saturates there).
* Fallible operations return an `RwOutcome` (ok / err / panic / diverge):
  `panic` models a Rust panic (`unimplemented!`, out-of-bounds index), and
  `diverge` models non-termination of a source loop, reachable only when the
  fuel bound chosen for the loop is exhausted.
* `&mut self` methods are modelled by returning the new state next to the
  outcome.
* Types that live in repository modules not present under src/ (crate::chs,
  crate::bitstream, crate::structure_parsers, crate::util) are modelled from
  the spec; each such definition carries a doc comment starting with
  "Modelled from the spec:".
-/

namespace FluxFox

/-- Error taxonomy of the library (src/diskimage.rs via crate root, spec §7). -/
inductive DiskImageError where
  | IoError
  | SeekError
  | ParameterError
  | DataError
  | UnsupportedFormat
  | FormatParseError
  | UnknownFormat
deriving DecidableEq

/-- Modelled from the spec: data encodings (§3); only the tag matters here. -/
inductive DiskDataEncoding where
  | Mfm
  | Fm
  | Gcr
deriving DecidableEq

/-- Modelled from the spec: data rates (§6); only the tag matters here. -/
inductive DiskDataRate where
  | Rate250Kbps
  | Rate300Kbps
  | Rate500Kbps
deriving DecidableEq

/-- Modelled from the spec: rotation rates (§6). -/
inductive DiskRpm where
  | Rpm300
  | Rpm360
deriving DecidableEq

/-- Modelled from the spec: the encoding phase tag carried by TrackFormat;
its value is irrelevant to every translated operation. -/
inductive EncodingPhase where
  | Even
  | Odd
deriving DecidableEq

/-- Modelled from the spec: CH = (cylinder: u16, head: u8) (§3). -/
structure DiskCh where
  c : Nat
  h : Nat
deriving DecidableEq

/-- Modelled from the spec: CHS adds sector: u8 (§3). crate::chs is not under src/. -/
structure DiskChs where
  c : Nat
  h : Nat
  s : Nat
deriving DecidableEq

/-- Modelled from the spec: CHSN adds the sector-size code N (§3). -/
structure DiskChsn where
  c : Nat
  h : Nat
  s : Nat
  n : Nat
deriving DecidableEq

/-- Modelled from the spec: payload size = 128 << N (§3, §4.A).
crate::chs::DiskChsn::n_to_bytes is not under src/. -/
def DiskChsn.n_to_bytes (n : Nat) : Nat := 128 <<< n

/-- Modelled from the spec: n_size() applies n_to_bytes to the header's own N. -/
def DiskChsn.n_size (chsn : DiskChsn) : Nat := DiskChsn.n_to_bytes chsn.n

/-- Modelled from the spec: the CHSN→CHS conversion drops N (§4.A). -/
def DiskChsn.toChs (chsn : DiskChsn) : DiskChs := ⟨chsn.c, chsn.h, chsn.s⟩

/-- Modelled from the spec: the (CH, sector) → CHS conversion (§4.A: CH↔CHS
conversions fill in the sector field). -/
def DiskChs.fromChS (ch : DiskCh) (s : Nat) : DiskChs := ⟨ch.c, ch.h, s⟩

/-- Modelled from the spec: crate::chs::DiskChs::get_next_sector is not under
src/.  §4.A: "CHS.get_next_sector advances sector by 1 within the track; does
NOT wrap across heads/cylinders"; §4.G: next_sector_on_track "uses the track's
physical sector count as the modulus" and detects end-of-track by the returned
cylinder changing.  We therefore model: below the geometry's sector count the
sector advances on the same track; at the end the cylinder advances (sector 1),
which is what lets the caller's same-cylinder check return None. -/
def DiskChs.get_next_sector (chs : DiskChs) (geom : DiskChs) : DiskChs :=
  if chs.s < geom.s then ⟨chs.c, chs.h, chs.s + 1⟩ else ⟨chs.c + 1, chs.h, 1⟩

/-- Markers recognised by the System 34 parser (spec §4.E, §6). -/
inductive System34Marker where
  | Iam
  | Idam
  | Dam
  | Ddam
deriving DecidableEq

/-- Modelled from the spec: crate::structure_parsers::system34::System34Element
is not under src/.  §3: elem_type is a tagged union of Marker(kind, value),
Data{address_crc_valid, data_crc_valid, deleted}, Gap, ... The marker's value
payload is never inspected by the translated code. -/
inductive System34Element where
  | Marker (kind : System34Marker) (value : Option Bool)
  | Data (address_crc : Bool) (data_crc : Bool) (deleted : Bool)
  | Gap
deriving DecidableEq

/-- Modelled from the spec: an element "is a sector" exactly when it is a Data
element — the get_sector_list / sector-count paths treat Data items as the
sectors of a track (§3, §4.E). -/
def System34Element.is_sector : System34Element → Bool
  | .Data _ _ _ => true
  | _ => false

/-- Modelled from the spec: metadata item with elem_type, start and end bit
indices, and optional CHSN (§3).  The source field `end` is a Lean keyword and
is rendered endIdx. -/
structure DiskStructureMetadataItem where
  elem_type : System34Element
  start : Nat
  endIdx : Nat
  chsn : Option DiskChsn
deriving DecidableEq

/-- Modelled from the spec: ordered list of metadata items (§3). -/
structure DiskStructureMetadata where
  items : List DiskStructureMetadataItem
deriving DecidableEq

/-- MFM "byte length" constant: 16 cells per decoded byte (spec §4.C). -/
def MFM_BYTE_LEN : Nat := 16

/-- DAM marker byte sequence A1 A1 A1 FB (spec §6). -/
def DAM_MARKER_BYTES : List Nat := [0xA1, 0xA1, 0xA1, 0xFB]

/-- DDAM marker byte sequence A1 A1 A1 F8 (spec §6). -/
def DDAM_MARKER_BYTES : List Nat := [0xA1, 0xA1, 0xA1, 0xF8]

/-- Modelled from the spec: one shift round of CRC-CCITT, polynomial 0x1021
over 16 bits (§4.I).  crate::util::crc_ccitt is not under src/. -/
def crc_ccitt_round (crc : Nat) : Nat :=
  if 32768 ≤ crc then ((crc <<< 1) ^^^ 0x1021) % 65536 else (crc <<< 1) % 65536

/-- Modelled from the spec: folding one byte into a CRC-CCITT state (§4.I). -/
def crc_ccitt_byte (crc b : Nat) : Nat :=
  Nat.iterate crc_ccitt_round 8 ((crc ^^^ (b <<< 8)) % 65536)

/-- Modelled from the spec: incremental CRC-CCITT, initial value 0xFFFF unless
a seed is supplied, no final XOR (§4.I). -/
def crc_ccitt (bytes : List Nat) (seed : Option Nat) : Nat :=
  bytes.foldl crc_ccitt_byte (seed.getD 0xFFFF)

/-- Big-endian byte pair of a 16-bit CRC (u16::to_be_bytes). -/
def u16_to_be_bytes (x : Nat) : List Nat := [x / 256 % 256, x % 256]

/-- Modelled from the spec: crate::bitstream::mfm::MfmDecoder is not under
src/.  §4.C fixes the contract used by trackdata.rs: positions are cell
indices, seek(half_bit_offset) puts the cursor at cell half_bit_offset × 2,
and read_exact consumes 16 cells per decoded byte.  Every access made by the
translated code is byte-aligned (cursor a multiple of 16), so the decoder is
modelled at byte granularity: `bytes` is the decoded byte stream (the byte
covering cells [16i, 16i+16)), `pos` the cursor in cells. -/
structure MfmDecoder where
  bytes : List Nat
  pos : Nat
deriving DecidableEq

/-- Modelled from the spec: seek(SeekFrom::Start(j)) positions the cursor at
cell j × 2 (§4.C half-bit addressing). -/
def MfmDecoder.seekStart (d : MfmDecoder) (j : Nat) : MfmDecoder :=
  { d with pos := 2 * j }

/-- Modelled from the spec: read_exact decodes k bytes of 16 cells each from
the cursor (§4.C); it fails when the cursor is not byte-aligned or the read
runs past the end of the stream. -/
def MfmDecoder.read_exact (d : MfmDecoder) (k : Nat) : Option (List Nat × MfmDecoder) :=
  if d.pos % 16 = 0 ∧ d.pos / 16 + k ≤ d.bytes.length then
    some ((d.bytes.drop (d.pos / 16)).take k, { d with pos := d.pos + 16 * k })
  else
    none

/-- Overwrite the slice of `l` starting at byte index `i` with `src`. -/
def overwriteAt (l : List Nat) (i : Nat) (src : List Nat) : List Nat :=
  l.take i ++ src ++ l.drop (i + src.length)

/-- Modelled from the spec: write_buf re-encodes src over the cells starting at
cell_offset (§4.C); byte-aligned in every translated call site.  Fails when the
write would run past the end of the stream. -/
def MfmDecoder.write_buf (d : MfmDecoder) (src : List Nat) (cell_offset : Nat) :
    Option MfmDecoder :=
  if cell_offset % 16 = 0 ∧ cell_offset / 16 + src.length ≤ d.bytes.length then
    some { d with bytes := overwriteAt d.bytes (cell_offset / 16) src }
  else
    none

/-- The stream held by a BitStream track (src/diskimage.rs TrackDataStream).
The Fm/Gcr variants are carried opaquely (spec §4.D); Raw stands in for every
non-MFM variant, which the translated operations reject uniformly. -/
inductive TrackDataStream where
  | Mfm (d : MfmDecoder)
  | Raw (bytes : List Nat)
deriving DecidableEq

/-- ByteStream sector record (src/diskimage.rs TrackSectorIndex). -/
structure TrackSectorIndex where
  sector_id : Nat
  cylinder_id : Nat
  head_id : Nat
  t_idx : Nat
  n : Nat
  len : Nat
  address_crc_error : Bool
  data_crc_error : Bool
  deleted_mark : Bool
deriving DecidableEq

/-- The two-variant track representation (src/trackdata.rs TrackData). -/
inductive TrackData where
  | BitStream (encoding : DiskDataEncoding) (data_rate : DiskDataRate)
      (data_clock : Nat) (cylinder : Nat) (head : Nat)
      (data : TrackDataStream) (metadata : DiskStructureMetadata)
      (sector_ids : List DiskChsn)
  | ByteStream (encoding : DiskDataEncoding) (data_rate : DiskDataRate)
      (cylinder : Nat) (head : Nat)
      (sectors : List TrackSectorIndex) (data : List Nat)
      (weak_mask : List Nat)
deriving DecidableEq

/-- Scope of a sector read/write (src/diskimage.rs RwSectorScope). -/
inductive RwSectorScope where
  | DataBlock
  | DataOnly
deriving DecidableEq

/-- Result of read_sector (src/diskimage.rs ReadSectorResult). -/
structure ReadSectorResult where
  data_idx : Nat
  data_len : Nat
  read_buf : List Nat
  deleted_mark : Bool
  not_found : Bool
  address_crc_error : Bool
  data_crc_error : Bool
  wrong_cylinder : Bool
  wrong_head : Bool
deriving DecidableEq

/-- Result of write_sector (src/diskimage.rs WriteSectorResult). -/
structure WriteSectorResult where
  not_found : Bool
  address_crc_error : Bool
  wrong_cylinder : Bool
  wrong_head : Bool
deriving DecidableEq

/-- Result of read_track / read_all_sectors (src/diskimage.rs ReadTrackResult). -/
structure ReadTrackResult where
  not_found : Bool
  sectors_read : Nat
  read_buf : List Nat
  deleted_mark : Bool
  address_crc_error : Bool
  data_crc_error : Bool
deriving DecidableEq

/-- Outcome of a translated fallible operation: Ok value, Err value, Rust
panic, or divergence of a source loop (only reachable past the fuel bound). -/
inductive RwOutcome (α : Type) where
  | ok (v : α)
  | err (e : DiskImageError)
  | panic
  | diverge
deriving DecidableEq

/-- Result bundle of get_first_sector_at_bit_index
(src/trackdata.rs TrackDataIndexResult). -/
structure TrackDataIndexResult where
  element_start : Nat
  element_end : Nat
  sector_chsn : DiskChsn
  address_crc_valid : Bool
  data_crc_valid : Bool
  deleted : Bool
deriving DecidableEq

/-- Sector count of a track (src/trackdata.rs TrackData::get_sector_ct):
ByteStream counts its sector records, BitStream counts metadata items whose
element type is a sector. -/
def TrackData.get_sector_ct : TrackData → Nat
  | .ByteStream _ _ _ _ sectors _ _ => sectors.length
  | .BitStream _ _ _ _ _ _ metadata _ =>
      metadata.items.countP (fun item => item.elem_type.is_sector)

/-- Loop body of TrackData::get_sector_bit_index (src/trackdata.rs lines
282–321): walk the metadata items, latch last_idam_matched when an IDAM's full
CHS equals seek_chs (and its N equals n when n is supplied) — the source never
resets the latch — and return at the first Data item seen with the latch set,
carrying the most recently seen IDAM chsn.  The source unwraps that chsn
(panicking if a later chsn-less IDAM overwrote it); no translated call site
reaches that state and it is rendered as none. -/
def get_sector_bit_index_go (seek_chs : DiskChs) (n : Option Nat) :
    Bool → Option DiskChsn → List DiskStructureMetadataItem →
    Option (Nat × DiskChsn × Bool × Bool × Bool)
  | _, _, [] => none
  | last_idam_matched, idam_chsn, mdi :: rest =>
    match mdi.elem_type with
    | System34Element.Marker System34Marker.Idam _ =>
      let matched :=
        match mdi.chsn with
        | some metadata_chsn =>
          if metadata_chsn.toChs = seek_chs ∧ (n = none ∨ n = some metadata_chsn.n) then
            true
          else
            last_idam_matched
        | none => last_idam_matched
      get_sector_bit_index_go seek_chs n matched mdi.chsn rest
    | System34Element.Data address_crc data_crc deleted =>
      if last_idam_matched then
        match idam_chsn with
        | some ic => some (mdi.start, ic, address_crc, data_crc, deleted)
        | none => none
      else
        get_sector_bit_index_go seek_chs n last_idam_matched idam_chsn rest
    | _ => get_sector_bit_index_go seek_chs n last_idam_matched idam_chsn rest

/-- TrackData::get_sector_bit_index (src/trackdata.rs lines 276–327). -/
def TrackData.get_sector_bit_index (td : TrackData) (seek_chs : DiskChs) (n : Option Nat) :
    Option (Nat × DiskChsn × Bool × Bool × Bool) :=
  match td with
  | .BitStream _ _ _ _ _ _ metadata _ =>
      get_sector_bit_index_go seek_chs n false none metadata.items
  | .ByteStream _ _ _ _ _ _ _ => none

/-- Loop body of TrackData::get_first_sector_at_bit_index (src/trackdata.rs
lines 209–258): items whose start is below bit_index are skipped; an IDAM
unconditionally sets the latch and records its chsn; the first Data item with
the latch set is returned.  The source's `idam_chsn?` returns None from the
whole function when the latched chsn is absent. -/
def get_first_sector_go (bit_index : Nat) :
    Bool → Option DiskChsn → List DiskStructureMetadataItem →
    Option TrackDataIndexResult
  | _, _, [] => none
  | last_idam_matched, idam_chsn, mdi :: rest =>
    if mdi.start < bit_index then
      get_first_sector_go bit_index last_idam_matched idam_chsn rest
    else
      match mdi.elem_type with
      | System34Element.Marker System34Marker.Idam _ =>
          get_first_sector_go bit_index true mdi.chsn rest
      | System34Element.Data address_crc data_crc deleted =>
          if last_idam_matched then
            match idam_chsn with
            | some ic => some ⟨mdi.start, mdi.endIdx, ic, address_crc, data_crc, deleted⟩
            | none => none
          else
            get_first_sector_go bit_index last_idam_matched idam_chsn rest
      | _ => get_first_sector_go bit_index last_idam_matched idam_chsn rest

/-- TrackData::get_first_sector_at_bit_index (src/trackdata.rs lines 209–258). -/
def TrackData.get_first_sector_at_bit_index (td : TrackData) (bit_index : Nat) :
    Option TrackDataIndexResult :=
  match td with
  | .BitStream _ _ _ _ _ _ metadata _ =>
      get_first_sector_go bit_index false none metadata.items
  | .ByteStream _ _ _ _ _ _ _ => none

/-- TrackData::read_exact_at (src/trackdata.rs lines 177–195): seek the MFM
decoder to offset >> 1 and read `len` bytes; SeekError on seek failure (the
modelled seek is total), IoError on read failure, UnsupportedFormat for a
non-MFM bitstream.  The ByteStream arm copies a slice of the payload buffer
(the source panics when the slice is out of range). -/
def TrackData.read_exact_at (td : TrackData) (offset : Nat) (len : Nat) :
    RwOutcome (List Nat) × TrackData :=
  match td with
  | .BitStream enc rate clk cyl hd (.Mfm mfm_decoder) metadata sids =>
    let dec1 := mfm_decoder.seekStart (offset >>> 1)
    match dec1.read_exact len with
    | none => (.err .IoError, .BitStream enc rate clk cyl hd (.Mfm dec1) metadata sids)
    | some (buf, dec2) =>
        (.ok buf, .BitStream enc rate clk cyl hd (.Mfm dec2) metadata sids)
  | .BitStream _ _ _ _ _ (.Raw _) _ _ => (.err .UnsupportedFormat, td)
  | .ByteStream _ _ _ _ _ data _ =>
    if offset + len ≤ data.length then
      (.ok ((data.drop offset).take len), td)
    else
      (.panic, td)

/-- Accumulated state of the ByteStream read_sector loop
(src/trackdata.rs lines 450–473): data_len, read_vec and the three flags. -/
structure ByteReadState where
  data_len : Nat
  read_vec : List Nat
  data_crc_error : Bool
  wrong_cylinder : Bool
  deleted_mark : Bool
deriving DecidableEq

/-- Loop of the ByteStream arm of read_sector (src/trackdata.rs lines
450–473): every record whose sector_id equals chs.s appends its payload slice
(there is no break) and accumulates the flags; the head is never compared. -/
def read_sector_bytestream_go (chs : DiskChs) (data : List Nat) :
    List TrackSectorIndex → ByteReadState → ByteReadState
  | [], st => st
  | si :: rest, st =>
    if si.sector_id = chs.s then
      let data_len := min (si.t_idx + si.len) data.length - si.t_idx
      read_sector_bytestream_go chs data rest
        { data_len := data_len
          read_vec := st.read_vec ++ (data.drop si.t_idx).take data_len
          data_crc_error := st.data_crc_error || si.data_crc_error
          wrong_cylinder := st.wrong_cylinder || decide (si.cylinder_id ≠ chs.c)
          deleted_mark := st.deleted_mark || si.deleted_mark }
    else
      read_sector_bytestream_go chs data rest st

/-- TrackData::read_sector (src/trackdata.rs lines 335–491).  The ByteStream
DataBlock arm is `unimplemented!` in the source and is rendered as a panic. -/
def TrackData.read_sector (td : TrackData) (chs : DiskChs) (n : Option Nat)
    (scope : RwSectorScope) (debug : Bool) : RwOutcome ReadSectorResult × TrackData :=
  match td with
  | .BitStream enc rate clk cyl hd (.Mfm mfm_decoder) metadata sids =>
    match td.get_sector_bit_index chs n with
    | none => (.err .DataError, td)
    | some (sector_offset, chsn, address_crc_valid, data_crc_valid, deleted) =>
      let address_crc_error := !address_crc_valid
      if address_crc_error ∧ !debug then
        (.ok { data_idx := 0, data_len := 0, read_buf := [], deleted_mark := false,
               not_found := false, address_crc_error := true, data_crc_error := false,
               wrong_cylinder := false, wrong_head := false }, td)
      else
        let deleted_mark := deleted
        let data_crc_error := !data_crc_valid
        let scopes : Nat × Nat × Nat :=
          match scope with
          | .DataBlock => (0, 4, 6)
          | .DataOnly => (32, 0, 0)
        let scope_read_off := scopes.1
        let scope_data_off := scopes.2.1
        let scope_data_adj := scopes.2.2
        let data_len_result : RwOutcome Nat :=
          match n with
          | some n_value =>
            if debug then .ok (DiskChsn.n_to_bytes n_value)
            else if chsn.n ≠ n_value then .err .DataError
            else .ok chsn.n_size
          | none => .ok chsn.n_size
        match data_len_result with
        | .ok data_len =>
          let dec1 := mfm_decoder.seekStart ((sector_offset >>> 1) + scope_read_off)
          match dec1.read_exact (data_len + scope_data_adj) with
          | none =>
              (.err .IoError, .BitStream enc rate clk cyl hd (.Mfm dec1) metadata sids)
          | some (read_vec, dec2) =>
              (.ok { data_idx := scope_data_off, data_len := data_len,
                     read_buf := read_vec, deleted_mark := deleted_mark,
                     not_found := false, address_crc_error := address_crc_error,
                     data_crc_error := data_crc_error, wrong_cylinder := false,
                     wrong_head := false },
               .BitStream enc rate clk cyl hd (.Mfm dec2) metadata sids)
        | .err e => (.err e, td)
        | .panic => (.panic, td)
        | .diverge => (.diverge, td)
  | .ByteStream _ _ _ _ sectors data _ =>
    match scope with
    | .DataBlock => (.panic, td)
    | .DataOnly =>
      let st := read_sector_bytestream_go chs data sectors
        { data_len := 0, read_vec := [], data_crc_error := false,
          wrong_cylinder := false, deleted_mark := false }
      (.ok { data_idx := 0, data_len := st.data_len, read_buf := st.read_vec,
             deleted_mark := st.deleted_mark, not_found := false,
             address_crc_error := false, data_crc_error := st.data_crc_error,
             wrong_cylinder := st.wrong_cylinder, wrong_head := false }, td)
  | .BitStream _ _ _ _ _ (.Raw _) _ _ => (.err .UnsupportedFormat, td)

/-- State of the ByteStream write_sector loop (wrong_cylinder / wrong_head
flags plus the possibly rewritten payload buffer). -/
structure ByteWriteState where
  data : List Nat
  wrong_cylinder : Bool
  wrong_head : Bool
deriving DecidableEq

/-- Loop of the ByteStream arm of write_sector (src/trackdata.rs lines
626–660): the first record matching on sector id (and n when supplied) is
rewritten in place and the loop breaks; a size mismatch is a ParameterError.
The in-place `copy_from_slice` panics when the slice is out of range. -/
def write_sector_bytestream_go (chs : DiskChs) (n : Option Nat) (write_data : List Nat) :
    List TrackSectorIndex → ByteWriteState → RwOutcome ByteWriteState
  | [], st => .ok st
  | si :: rest, st =>
    let sector_match : Bool :=
      (si.sector_id == chs.s) && (match n with | some nv => si.n == nv | none => true)
    if sector_match then
      if DiskChsn.n_to_bytes si.n ≠ write_data.length then
        .err .ParameterError
      else
        let st1 : ByteWriteState :=
          { data := st.data
            wrong_cylinder := st.wrong_cylinder || decide (si.cylinder_id ≠ chs.c)
            wrong_head := st.wrong_head || decide (si.head_id ≠ chs.h) }
        if si.t_idx + write_data.length ≤ st1.data.length then
          .ok { st1 with data := overwriteAt st1.data si.t_idx write_data }
        else
          .panic
    else
      write_sector_bytestream_go chs n write_data rest st

/-- TrackData::write_sector (src/trackdata.rs lines 493–673). -/
def TrackData.write_sector (td : TrackData) (chs : DiskChs) (n : Option Nat)
    (write_data : List Nat) (scope : RwSectorScope) (write_deleted : Bool)
    (debug : Bool) : RwOutcome WriteSectorResult × TrackData :=
  match td with
  | .BitStream enc rate clk cyl hd (.Mfm mfm_codec) metadata sids =>
    match td.get_sector_bit_index chs n with
    | none => (.err .DataError, td)
    | some (sector_offset, chsn, address_crc_valid, _data_crc_valid, deleted) =>
      let wrong_cylinder := decide (chsn.c ≠ chs.c)
      let wrong_head := decide (chsn.h ≠ chs.h)
      let address_crc_error := !address_crc_valid
      if address_crc_error ∧ !debug then
        (.ok { not_found := false, address_crc_error := address_crc_error,
               wrong_cylinder := wrong_cylinder, wrong_head := wrong_head }, td)
      else
        let mark_bytes := if deleted then DDAM_MARKER_BYTES else DAM_MARKER_BYTES
        -- write_deleted ≠ deleted is logged only (spec §9 open question (1)).
        let data_len_result : RwOutcome Nat :=
          match n with
          | some n_value =>
            if debug then .ok (min write_data.length (DiskChsn.n_to_bytes n_value))
            else if chsn.n ≠ n_value then .err .DataError
            else if chsn.n_size > write_data.length then .err .ParameterError
            else .ok chsn.n_size
          | none =>
            if DiskChsn.n_to_bytes chsn.n ≠ write_data.length then .err .ParameterError
            else .ok chsn.n_size
        match data_len_result with
        | .ok data_len =>
          let dec1 := mfm_codec.seekStart ((sector_offset >>> 1) + 32)
          match dec1.write_buf (write_data.take data_len) (sector_offset + 4 * MFM_BYTE_LEN) with
          | none => (.err .IoError, .BitStream enc rate clk cyl hd (.Mfm dec1) metadata sids)
          | some dec2 =>
            let crc0 := crc_ccitt mark_bytes none
            let crc := crc_ccitt (write_data.take data_len) (some crc0)
            match dec2.write_buf (u16_to_be_bytes crc)
                (sector_offset + (4 + data_len) * MFM_BYTE_LEN) with
            | none => (.err .IoError, .BitStream enc rate clk cyl hd (.Mfm dec2) metadata sids)
            | some dec3 =>
              (.ok { not_found := false, address_crc_error := false,
                     wrong_cylinder := wrong_cylinder, wrong_head := wrong_head },
               .BitStream enc rate clk cyl hd (.Mfm dec3) metadata sids)
        | .err e => (.err e, td)
        | .panic => (.panic, td)
        | .diverge => (.diverge, td)
  | .ByteStream enc rate cyl hd sectors data weak_mask =>
    match write_sector_bytestream_go chs n write_data sectors
        { data := data, wrong_cylinder := false, wrong_head := false } with
    | .ok st =>
      (.ok { not_found := false, address_crc_error := false,
             wrong_cylinder := st.wrong_cylinder, wrong_head := st.wrong_head },
       .ByteStream enc rate cyl hd sectors st.data weak_mask)
    | .err e => (.err e, td)
    | .panic => (.panic, td)
    | .diverge => (.diverge, td)
  | .BitStream _ _ _ _ _ (.Raw _) _ _ => (.err .UnsupportedFormat, td)

/-- TrackData::get_hash (src/trackdata.rs lines 675–687).  Modelled from the
spec for the hashing core: SHA-1 lives in the external sha1_smol crate (out of
scope per §1); since SHA-1 is a fixed deterministic function, digest equality
follows from equality of the hashed bytes, so the digest is modelled as the
byte sequence fed to the hasher — the track's underlying stream bytes for
BitStream, the concatenated payload for ByteStream (§4.F Hash). -/
def TrackData.get_hash : TrackData → List Nat
  | .BitStream _ _ _ _ _ (.Mfm d) _ _ => d.bytes
  | .BitStream _ _ _ _ _ (.Raw bs) _ _ => bs
  | .ByteStream _ _ _ _ _ data _ => data

/-- Accumulated state of the read_all_sectors loops (src/trackdata.rs
lines 702–848). -/
structure ReadAllState where
  track_read_vec : List Nat
  sectors_read : Nat
  address_crc_error : Bool
  data_crc_error : Bool
  deleted_mark : Bool
  not_found : Bool
deriving DecidableEq

/-- Loop of read_all_sectors_bitstream (src/trackdata.rs lines 719–766): for
each located sector accumulate the flags, read 128<<n bytes at element_start +
64 cells (any read failure maps to IoError), break after the sector whose id
equals eot, else continue from element_end.  The source's while-loop has no
termination guarantee of its own; `fuel` bounds it and exhaustion is rendered
as divergence. -/
def read_all_bitstream_go (sector_data_len eot : Nat) :
    Nat → TrackDataIndexResult → TrackData → ReadAllState →
    RwOutcome ReadTrackResult × TrackData
  | 0, _, td, _ => (.diverge, td)
  | fuel + 1, tdir, td, st =>
    let st1 : ReadAllState :=
      { st with
        not_found := false
        address_crc_error := st.address_crc_error || !tdir.address_crc_valid
        data_crc_error := st.data_crc_error || !tdir.data_crc_valid
        deleted_mark := st.deleted_mark || tdir.deleted }
    match td.read_exact_at (tdir.element_start + 64) sector_data_len with
    | (.ok sector_read_vec, td1) =>
      let st2 : ReadAllState :=
        { st1 with
          track_read_vec := st1.track_read_vec ++ sector_read_vec
          sectors_read := st1.sectors_read + 1 }
      if tdir.sector_chsn.s = eot then
        (.ok { not_found := st2.not_found, sectors_read := st2.sectors_read,
               read_buf := st2.track_read_vec, deleted_mark := st2.deleted_mark,
               address_crc_error := st2.address_crc_error,
               data_crc_error := st2.data_crc_error }, td1)
      else
        match td1.get_first_sector_at_bit_index tdir.element_end with
        | some tdir1 => read_all_bitstream_go sector_data_len eot fuel tdir1 td1 st2
        | none =>
          (.ok { not_found := st2.not_found, sectors_read := st2.sectors_read,
                 read_buf := st2.track_read_vec, deleted_mark := st2.deleted_mark,
                 address_crc_error := st2.address_crc_error,
                 data_crc_error := st2.data_crc_error }, td1)
    | (_, td1) => (.err .IoError, td1)

/-- TrackData::read_all_sectors_bitstream (src/trackdata.rs lines 702–776). -/
def TrackData.read_all_sectors_bitstream (td : TrackData) (n eot : Nat) :
    RwOutcome ReadTrackResult × TrackData :=
  let sector_data_len := DiskChsn.n_to_bytes n
  match td.get_first_sector_at_bit_index 0 with
  | none => (.err .DataError, td)
  | some tdir =>
    let fuel :=
      match td with
      | .BitStream _ _ _ _ _ _ metadata _ => metadata.items.length + 1
      | .ByteStream _ _ _ _ _ _ _ => 1
    read_all_bitstream_go sector_data_len eot fuel tdir td
      { track_read_vec := [], sectors_read := 0, address_crc_error := false,
        data_crc_error := false, deleted_mark := false, not_found := true }

/-- Loop of read_all_sectors_bytestream (src/trackdata.rs lines 790–837): each
record first clears not_found, then the loop breaks once sectors_read ≥ eot
(eot acts as a sector COUNT here), skips records overlapping the previous one,
and otherwise appends min(128<<n, remaining) bytes from the record's t_idx. -/
def read_all_bytestream_go (data : List Nat) (sector_data_len eot : Nat) :
    List TrackSectorIndex → (ReadAllState × Nat) → ReadAllState × Nat
  | [], st => st
  | si :: rest, (st, last_data_end) =>
    let st := { st with not_found := false }
    if st.sectors_read ≥ eot then
      (st, last_data_end)
    else if si.t_idx < last_data_end then
      read_all_bytestream_go data sector_data_len eot rest (st, last_data_end)
    else
      let data_len := min sector_data_len (data.length - si.t_idx)
      let st1 : ReadAllState :=
        { track_read_vec := st.track_read_vec ++ (data.drop si.t_idx).take data_len
          sectors_read := st.sectors_read + 1
          address_crc_error := st.address_crc_error || si.address_crc_error
          data_crc_error := st.data_crc_error || si.data_crc_error
          deleted_mark := st.deleted_mark || si.deleted_mark
          not_found := st.not_found }
      read_all_bytestream_go data sector_data_len eot rest (st1, si.t_idx + data_len)

/-- TrackData::read_all_sectors_bytestream (src/trackdata.rs lines 778–848);
always returns Ok. -/
def TrackData.read_all_sectors_bytestream (td : TrackData) (n eot : Nat) :
    RwOutcome ReadTrackResult × TrackData :=
  match td with
  | .ByteStream _ _ _ _ sectors data _ =>
    let sector_data_len := DiskChsn.n_to_bytes n
    let st := (read_all_bytestream_go data sector_data_len eot sectors
      ({ track_read_vec := [], sectors_read := 0, address_crc_error := false,
         data_crc_error := false, deleted_mark := false, not_found := true }, 0)).1
    (.ok { not_found := st.not_found, sectors_read := st.sectors_read,
           read_buf := st.track_read_vec, deleted_mark := st.deleted_mark,
           address_crc_error := st.address_crc_error,
           data_crc_error := st.data_crc_error }, td)
  | _ =>
    (.ok { not_found := true, sectors_read := 0, read_buf := [],
           deleted_mark := false, address_crc_error := false,
           data_crc_error := false }, td)

/-- TrackData::read_all_sectors (src/trackdata.rs lines 695–700): dispatch on
the representation variant; the ch argument is unused by both arms. -/
def TrackData.read_all_sectors (td : TrackData) (ch : DiskCh) (n eot : Nat) :
    RwOutcome ReadTrackResult × TrackData :=
  match td with
  | .BitStream _ _ _ _ _ _ _ _ => td.read_all_sectors_bitstream n eot
  | .ByteStream _ _ _ _ _ _ _ => td.read_all_sectors_bytestream n eot

/-- Per-track format settings (src/diskimage.rs TrackFormat). -/
structure TrackFormat where
  data_encoding : DiskDataEncoding
  data_sync : Option EncodingPhase
  data_rate : DiskDataRate
deriving DecidableEq

/-- A disk track: format plus representation (src/diskimage.rs DiskTrack). -/
structure DiskTrack where
  format : TrackFormat
  data : TrackData
deriving DecidableEq

/-- DiskTrack::get_sector_count (src/diskimage.rs lines 259–261). -/
def DiskTrack.get_sector_count (t : DiskTrack) : Nat := t.data.get_sector_ct

/-- Disk descriptor (src/diskimage.rs DiskDescriptor). -/
structure DiskDescriptor where
  geometry : DiskCh
  default_sector_size : Nat
  data_encoding : DiskDataEncoding
  data_rate : DiskDataRate
  rpm : Option DiskRpm
deriving DecidableEq

/-- Disk consistency summary (src/diskimage.rs DiskConsistency). -/
structure DiskConsistency where
  weak : Bool
  deleted : Bool
  consistent_sector_size : Option Nat
  consistent_track_length : Option Nat
deriving DecidableEq

/-- Floppy format enumeration (src/diskimage.rs FloppyFormat). -/
inductive FloppyFormat where
  | Unknown
  | FloppyCustom (chs : DiskChs)
  | PcFloppy160
  | PcFloppy180
  | PcFloppy320
  | PcFloppy360
  | PcFloppy720
  | PcFloppy1200
  | PcFloppy1440
  | PcFloppy2880
deriving DecidableEq

/-- FloppyFormat::size (src/diskimage.rs lines 151–165). -/
def FloppyFormat.size : FloppyFormat → Nat
  | .Unknown => 0
  | .FloppyCustom chs => chs.c * chs.h * chs.s * 512
  | .PcFloppy160 => 163840
  | .PcFloppy180 => 184320
  | .PcFloppy320 => 327680
  | .PcFloppy360 => 368640
  | .PcFloppy720 => 737280
  | .PcFloppy1200 => 1228800
  | .PcFloppy1440 => 1474560
  | .PcFloppy2880 => 2949120

/-- The From usize conversion for FloppyFormat (src/diskimage.rs lines
173–187): exact size match, everything else is Unknown. -/
def floppyFormatFromSize (size : Nat) : FloppyFormat :=
  if size = 163840 then .PcFloppy160
  else if size = 184320 then .PcFloppy180
  else if size = 327680 then .PcFloppy320
  else if size = 368640 then .PcFloppy360
  else if size = 737280 then .PcFloppy720
  else if size = 1228800 then .PcFloppy1200
  else if size = 1474560 then .PcFloppy1440
  else if size = 2949120 then .PcFloppy2880
  else .Unknown

/-- Sector mastering input (src/diskimage.rs SectorDescriptor). -/
structure SectorDescriptor where
  id : Nat
  cylinder_id : Option Nat
  head_id : Option Nat
  n : Nat
  data : List Nat
  weak : Option (List Nat)
  address_crc_error : Bool
  data_crc_error : Bool
  deleted_mark : Bool
deriving DecidableEq

/-- The in-memory disk image (src/diskimage.rs DiskImage).  The source's
track_map and sector_map are two-element arrays indexed by head; they are
rendered as explicit head-0 / head-1 fields. -/
structure DiskImage where
  disk_format : FloppyFormat
  image_format : DiskDescriptor
  consistency : DiskConsistency
  sector_size : Nat
  volume_name : Option String
  comment : Option String
  track_pool : List DiskTrack
  track_map0 : List Nat
  track_map1 : List Nat
  sector_map0 : List (List Nat)
  sector_map1 : List (List Nat)
deriving DecidableEq

/-- Access to track_map[h] for h < 2 (the only range the source can index
without panicking; callers guard or panic first). -/
def DiskImage.track_map (di : DiskImage) (h : Nat) : List Nat :=
  if h = 0 then di.track_map0 else di.track_map1

/-- DiskImage::geometry (src/diskimage.rs lines 409–411). -/
def DiskImage.geometry (di : DiskImage) : DiskCh := di.image_format.geometry

/-- DiskImage::master_sector (src/diskimage.rs lines 518–559).  The bounds
test rejects h > 1 or track_map[h].len() < c with SeekError; afterwards
track_map[h][c] and track_pool[ti] are indexed directly, and an out-of-range
index is a Rust panic. -/
def DiskImage.master_sector (di : DiskImage) (chs : DiskChs) (sd : SectorDescriptor) :
    RwOutcome DiskImage :=
  if chs.h > 1 ∨ (di.track_map chs.h).length < chs.c then
    .err .SeekError
  else
    let weak_buf_vec :=
      match sd.weak with
      | some weak_buf => weak_buf
      | none => List.replicate sd.data.length 0
    match (di.track_map chs.h).get? chs.c with
    | none => .panic
    | some ti =>
      match di.track_pool.get? ti with
      | none => .panic
      | some track =>
        match track.data with
        | .ByteStream enc rate cyl hd sectors data weak_mask =>
          let new_sector : TrackSectorIndex :=
            { sector_id := sd.id
              cylinder_id := sd.cylinder_id.getD chs.c
              head_id := sd.head_id.getD chs.h
              n := sd.n
              t_idx := data.length
              len := sd.data.length
              address_crc_error := sd.address_crc_error
              data_crc_error := sd.data_crc_error
              deleted_mark := sd.deleted_mark }
          let new_track : DiskTrack :=
            { track with
              data := .ByteStream enc rate cyl hd (sectors ++ [new_sector])
                (data ++ sd.data) (weak_mask ++ weak_buf_vec) }
          .ok { di with track_pool := di.track_pool.set ti new_track }
        | .BitStream _ _ _ _ _ _ _ _ => .err .UnsupportedFormat

/-- DiskImage::next_sector_on_track (src/diskimage.rs lines 561–576): look up
the track of chs, take its sector count s, build geom_chs from the disk
geometry and `s as u8` (truncating cast), compute
geom_chs.get_next_sector(&geom_chs) — note: of the geometry CHS itself, not of
chs — and return it when its cylinder equals chs.c, else None.  The unguarded
track_map / track_pool indexing panics when out of range. -/
def DiskImage.next_sector_on_track (di : DiskImage) (chs : DiskChs) :
    RwOutcome (Option DiskChs) :=
  if chs.h ≥ 2 then .panic
  else
    match (di.track_map chs.h).get? chs.c with
    | none => .panic
    | some ti =>
      match di.track_pool.get? ti with
      | none => .panic
      | some track =>
        let s := track.get_sector_count
        let geom_chs := DiskChs.fromChS di.geometry (s % 256)
        let next_sector := geom_chs.get_next_sector geom_chs
        if next_sector.c = chs.c then .ok (some next_sector) else .ok none

/-- Emptiness test of the pool entry a track_map value points at; none when
the pool index is out of range (where the source would panic). -/
def trackEmptyAt (pool : List DiskTrack) (ti : Nat) : Option Bool :=
  (pool.get? ti).map (fun t => t.get_sector_count == 0)

/-- Whether a track_map entry survives empty-track removal: it points at a
pool track with at least one sector.  (Entries whose pool index is out of
range would make the source panic; they are treated as kept so that the
equation below is stated only under the §3 invariant.) -/
def trackKeptAt (pool : List DiskTrack) (ti : Nat) : Bool :=
  match trackEmptyAt pool ti with
  | some e => !e
  | none => true

/-- Positions (head-local track indices, in ascending order by construction)
of the empty tracks of one head's track_map, starting the numbering at `i`;
none when some pool index is out of range. -/
def emptyPositionsAux (pool : List DiskTrack) : List Nat → Nat → Option (List Nat)
  | [], _ => some []
  | ti :: rest, i =>
    match trackEmptyAt pool ti with
    | none => none
    | some e =>
      match emptyPositionsAux pool rest (i + 1) with
      | none => none
      | some ps => some (if e then i :: ps else ps)

/-- Descending insertion, mirroring the source's sort_by(|a, b| b.cmp(a)). -/
def insertDesc (x : Nat) : List Nat → List Nat
  | [] => [x]
  | y :: ys => if x ≥ y then x :: y :: ys else y :: insertDesc x ys

/-- Descending sort of the empty-track position list (src/diskimage.rs line
666 sorts each head's list in descending order before removal). -/
def sortDesc (l : List Nat) : List Nat := l.foldr insertDesc []

/-- DiskImage::remove_empty_tracks (src/diskimage.rs lines 652–677): collect
each head's empty positions, sort them descending, and remove them from that
head's track_map in that order; the pool is deliberately left untouched. -/
def DiskImage.remove_empty_tracks (di : DiskImage) : RwOutcome DiskImage :=
  match emptyPositionsAux di.track_pool di.track_map0 0 with
  | none => .panic
  | some ps0 =>
    match emptyPositionsAux di.track_pool di.track_map1 0 with
    | none => .panic
    | some ps1 =>
      .ok { di with
        track_map0 := (sortDesc ps0).foldl (fun acc p => acc.eraseIdx p) di.track_map0
        track_map1 := (sortDesc ps1).foldl (fun acc p => acc.eraseIdx p) di.track_map1 }

/-- DiskImage::normalize (src/diskimage.rs lines 631–650): count the mapped
tracks with zero sectors; when empty_tracks.len() ≥ track_ct / 2 (integer
division) call remove_empty_tracks, else leave the image unchanged. -/
def DiskImage.normalize (di : DiskImage) : RwOutcome DiskImage :=
  match emptyPositionsAux di.track_pool di.track_map0 0 with
  | none => .panic
  | some ps0 =>
    match emptyPositionsAux di.track_pool di.track_map1 0 with
    | none => .panic
    | some ps1 =>
      let track_ct := di.track_map0.length + di.track_map1.length
      if ps0.length + ps1.length ≥ track_ct / 2 then
        di.remove_empty_tracks
      else
        .ok di

/-
Concrete instances used by witnesses and counterexamples.
-/

/-- Metadata of a one-sector track (C,H,S,N) = (0,0,1,0) whose Data item
records an invalid address CRC. -/
def exMeta1 : DiskStructureMetadata :=
  ⟨[⟨.Marker .Idam none, 0, 0, some ⟨0, 0, 1, 0⟩⟩,
    ⟨.Data false true false, 0, 2144, some ⟨0, 0, 1, 0⟩⟩]⟩

/-- BitStream track whose single sector has an invalid IDAM address CRC. -/
def exTrack1 : TrackData :=
  .BitStream .Mfm .Rate500Kbps 500000 0 0 (.Mfm ⟨[], 0⟩) exMeta1 [⟨0, 0, 1, 0⟩]

/-- ByteStream track holding one 4-byte sector with id 1. -/
def exTrack2 : TrackData :=
  .ByteStream .Mfm .Rate500Kbps 0 0
    [⟨1, 0, 0, 0, 0, 4, false, false, false⟩] [1, 2, 3, 4] []

/-- BitStream track whose single IDAM stores cylinder 1 while the track is
physically at cylinder 0. -/
def exTrack3 : TrackData :=
  .BitStream .Mfm .Rate500Kbps 500000 0 0 (.Mfm ⟨[], 0⟩)
    ⟨[⟨.Marker .Idam none, 0, 0, some ⟨1, 0, 1, 0⟩⟩,
      ⟨.Data true true false, 0, 2144, some ⟨1, 0, 1, 0⟩⟩]⟩
    [⟨1, 0, 1, 0⟩]

/-- ByteStream track whose single sector record stores cylinder_id 7. -/
def exTrack3b : TrackData :=
  .ByteStream .Mfm .Rate500Kbps 0 0
    [⟨1, 7, 0, 0, 0, 4, false, false, false⟩] [9, 9, 9, 9] []

/-- ByteStream disk track of nine sectors with ids 1..9 (payloads empty;
only the sector count matters to next_sector_on_track). -/
def exTrack4 : DiskTrack :=
  ⟨⟨.Mfm, none, .Rate500Kbps⟩,
   .ByteStream .Mfm .Rate500Kbps 0 0
     ((List.range 9).map (fun i => ⟨i + 1, 0, 0, 0, 0, 0, false, false, false⟩)) [] []⟩

/-- Disk with geometry 40×2 and a single mapped nine-sector track at (0,0). -/
def exDisk4 : DiskImage :=
  { disk_format := .PcFloppy360
    image_format := ⟨⟨40, 2⟩, 512, .Mfm, .Rate500Kbps, some .Rpm300⟩
    consistency := ⟨false, false, some 512, some 9⟩
    sector_size := 512
    volume_name := none
    comment := none
    track_pool := [exTrack4]
    track_map0 := [0]
    track_map1 := []
    sector_map0 := []
    sector_map1 := [] }

/-- BitStream track with one valid sector of size code N = 2 (512 bytes);
its decoded stream holds 4 marker bytes followed by 512 payload bytes of 7. -/
def exTrack5 : TrackData :=
  .BitStream .Mfm .Rate500Kbps 500000 0 0 (.Mfm ⟨List.replicate 516 7, 0⟩)
    ⟨[⟨.Marker .Idam none, 0, 0, some ⟨0, 0, 1, 2⟩⟩,
      ⟨.Data true true false, 0, 8256, some ⟨0, 0, 1, 2⟩⟩]⟩
    [⟨0, 0, 1, 2⟩]

/-- BitStream track with one N = 0 sector whose address CRC is invalid. -/
def exTrack6bad : TrackData :=
  .BitStream .Mfm .Rate500Kbps 500000 0 0 (.Mfm ⟨List.replicate 10 0, 0⟩)
    ⟨[⟨.Marker .Idam none, 0, 0, some ⟨0, 0, 1, 0⟩⟩,
      ⟨.Data false true false, 0, 2144, some ⟨0, 0, 1, 0⟩⟩]⟩
    [⟨0, 0, 1, 0⟩]

/-- BitStream track with one valid N = 0 sector. -/
def exTrack6 : TrackData :=
  .BitStream .Mfm .Rate500Kbps 500000 0 0 (.Mfm ⟨List.replicate 10 0, 0⟩)
    ⟨[⟨.Marker .Idam none, 0, 0, some ⟨0, 0, 1, 0⟩⟩,
      ⟨.Data true true false, 0, 2144, some ⟨0, 0, 1, 0⟩⟩]⟩
    [⟨0, 0, 1, 0⟩]

/-- Decoded byte block of sector k on the nine-sector test track: DAM marker,
128 payload bytes of value k, two CRC bytes — 134 bytes, 2144 cells. -/
def exBlock7 (k : Nat) : List Nat :=
  0xA1 :: 0xA1 :: 0xA1 :: 0xFB :: (List.replicate 128 k ++ [0, 0])

/-- Decoded byte stream of the nine-sector test track. -/
def exBytes7 : List Nat := ((List.range 9).map (fun i => exBlock7 (i + 1))).flatten

/-- Metadata of the nine-sector test track: per sector an IDAM item and a Data
item anchored at the sector's block start (2144 cells per block). -/
def exItems7 : List DiskStructureMetadataItem :=
  ((List.range 9).map (fun i =>
    [(⟨.Marker .Idam none, 2144 * i, 2144 * i, some ⟨0, 0, i + 1, 0⟩⟩ :
        DiskStructureMetadataItem),
     ⟨.Data true true false, 2144 * i, 2144 * (i + 1), some ⟨0, 0, i + 1, 0⟩⟩])).flatten

/-- BitStream track with sectors 1..9 (N = 0) laid out in ascending order. -/
def exTrack7bit : TrackData :=
  .BitStream .Mfm .Rate500Kbps 500000 0 0 (.Mfm ⟨exBytes7, 0⟩) ⟨exItems7⟩
    ((List.range 9).map (fun i => ⟨0, 0, i + 1, 0⟩))

/-- ByteStream sector records 1..9, 128 bytes each, back to back. -/
def exSectors7 : List TrackSectorIndex :=
  (List.range 9).map (fun i => ⟨i + 1, 0, 0, 128 * i, 0, 128, false, false, false⟩)

/-- ByteStream payload buffer of the nine-sector test track: 128 bytes of k
for each sector k. -/
def exData7 : List Nat := ((List.range 9).map (fun i => List.replicate 128 (i + 1))).flatten

/-- ByteStream track with sectors 1..9 (N = 0) laid out in ascending order. -/
def exTrack7byte : TrackData := .ByteStream .Mfm .Rate500Kbps 0 0 exSectors7 exData7 []

/-- Expected read_all_sectors output for eot = 5 on the nine-sector tracks:
payloads of sectors 1..5 concatenated. -/
def exExpected7 : List Nat := ((List.range 5).map (fun i => List.replicate 128 (i + 1))).flatten

/-- ByteStream track whose first sector already has id eot = 5, followed by a
second sector with id 1. -/
def exTrack7ce : TrackData :=
  .ByteStream .Mfm .Rate500Kbps 0 0
    [⟨5, 0, 0, 0, 0, 128, false, false, false⟩, ⟨1, 0, 0, 128, 0, 128, false, false, false⟩]
    (List.replicate 128 5 ++ List.replicate 128 1) []

/-- ByteStream disk track with one sector (non-empty). -/
def exTrackNonEmpty : DiskTrack :=
  ⟨⟨.Mfm, none, .Rate500Kbps⟩,
   .ByteStream .Mfm .Rate500Kbps 0 0 [⟨1, 0, 0, 0, 0, 0, false, false, false⟩] [] []⟩

/-- ByteStream disk track with no sectors (empty). -/
def exTrackEmpty : DiskTrack :=
  ⟨⟨.Mfm, none, .Rate500Kbps⟩, .ByteStream .Mfm .Rate500Kbps 0 0 [] [] []⟩

/-- Disk with five mapped tracks on head 0 of which two (positions 3 and 4)
are empty: 40% empty, strictly below half. -/
def exDisk9 : DiskImage :=
  { disk_format := .PcFloppy360
    image_format := ⟨⟨40, 2⟩, 512, .Mfm, .Rate500Kbps, some .Rpm300⟩
    consistency := ⟨false, false, some 512, some 9⟩
    sector_size := 512
    volume_name := none
    comment := none
    track_pool := [exTrackNonEmpty, exTrackNonEmpty, exTrackNonEmpty, exTrackEmpty, exTrackEmpty]
    track_map0 := [0, 1, 2, 3, 4]
    track_map1 := []
    sector_map0 := []
    sector_map1 := [] }

/-- Disk with one mapped track index on head 0 and an empty pool; only the
track_map length matters to the master_sector boundary case. -/
def exDisk10 : DiskImage :=
  { disk_format := .PcFloppy360
    image_format := ⟨⟨40, 2⟩, 512, .Mfm, .Rate500Kbps, some .Rpm300⟩
    consistency := ⟨false, false, some 512, some 9⟩
    sector_size := 512
    volume_name := none
    comment := none
    track_pool := []
    track_map0 := [0]
    track_map1 := []
    sector_map0 := []
    sector_map1 := [] }

/-- Trivial sector descriptor for the master_sector boundary case. -/
def exSd : SectorDescriptor := ⟨1, none, none, 0, [], none, false, false, false⟩

/-
Theorems.
-/

/-- C8: the eight PC floppy format tags and their table sizes are in exact
mutual correspondence under FloppyFormat::size and From usize, and every
other size maps to Unknown. -/
theorem C8_floppy_format_size_exact :
    ((floppyFormatFromSize 163840 = .PcFloppy160 ∧ FloppyFormat.size .PcFloppy160 = 163840) ∧
     (floppyFormatFromSize 184320 = .PcFloppy180 ∧ FloppyFormat.size .PcFloppy180 = 184320) ∧
     (floppyFormatFromSize 327680 = .PcFloppy320 ∧ FloppyFormat.size .PcFloppy320 = 327680) ∧
     (floppyFormatFromSize 368640 = .PcFloppy360 ∧ FloppyFormat.size .PcFloppy360 = 368640) ∧
     (floppyFormatFromSize 737280 = .PcFloppy720 ∧ FloppyFormat.size .PcFloppy720 = 737280) ∧
     (floppyFormatFromSize 1228800 = .PcFloppy1200 ∧ FloppyFormat.size .PcFloppy1200 = 1228800) ∧
     (floppyFormatFromSize 1474560 = .PcFloppy1440 ∧ FloppyFormat.size .PcFloppy1440 = 1474560) ∧
     (floppyFormatFromSize 2949120 = .PcFloppy2880 ∧ FloppyFormat.size .PcFloppy2880 = 2949120)) ∧
    ∀ s : Nat,
      s ∉ ([163840, 184320, 327680, 368640, 737280, 1228800, 1474560, 2949120] : List Nat) →
      floppyFormatFromSize s = .Unknown := by
  constructor
  · decide
  · intro s hs
    simp only [List.mem_cons, List.not_mem_nil, or_false, not_or] at hs
    obtain ⟨h1, h2, h3, h4, h5, h6, h7, h8⟩ := hs
    simp [floppyFormatFromSize, h1, h2, h3, h4, h5, h6, h7, h8]

/-- C8 witness: FloppyFormat::from(1_474_560) is PcFloppy1440 and
FloppyFormat::from(100_000) is Unknown. -/
theorem C8_witness :
    floppyFormatFromSize 1474560 = FloppyFormat.PcFloppy1440 ∧
    floppyFormatFromSize 100000 = FloppyFormat.Unknown :=
  ⟨C8_floppy_format_size_exact.1.2.2.2.2.2.2.1.1,
   C8_floppy_format_size_exact.2 100000 (by decide)⟩

/-- Helper: when the master_sector bounds test passes, the result is never
SeekError (it is a panic, an UnsupportedFormat error, or success). -/
theorem master_sector_ne_seek (di : DiskImage) (chs : DiskChs) (sd : SectorDescriptor)
    (hg : ¬(chs.h > 1 ∨ (di.track_map chs.h).length < chs.c)) :
    di.master_sector chs sd ≠ .err .SeekError := by
  unfold DiskImage.master_sector
  rw [if_neg hg]
  rcases hm : (di.track_map chs.h).get? chs.c with _ | ti
  · simp
  · rcases hp : di.track_pool[ti]? with _ | track
    · simp [hp]
    · rcases htd : track.data with _ | ⟨enc, rate, cyl, hd, sectors, data, weak⟩
      · simp [hp, htd]
      · simp [hp, htd]

/-- C10: master_sector's bounds test rejects exactly chs.h > 1 or
track_map[chs.h].len() < chs.c with SeekError, and at the boundary
chs.c = track_map[chs.h].len() (valid head) the guard passes and the direct
track_map[chs.h][chs.c] index is out of bounds — a panic, not SeekError. -/
theorem C10_master_sector_boundary (di : DiskImage) (chs : DiskChs) (sd : SectorDescriptor) :
    (di.master_sector chs sd = .err .SeekError ↔
      (chs.h > 1 ∨ (di.track_map chs.h).length < chs.c)) ∧
    (chs.h ≤ 1 → chs.c = (di.track_map chs.h).length →
      di.master_sector chs sd = .panic) := by
  constructor
  · constructor
    · intro h
      by_contra hg
      exact master_sector_ne_seek di chs sd hg h
    · intro hg
      unfold DiskImage.master_sector
      rw [if_pos hg]
  · intro hh hc
    have hg : ¬(chs.h > 1 ∨ (di.track_map chs.h).length < chs.c) := by omega
    unfold DiskImage.master_sector
    rw [if_neg hg]
    have hnone : (di.track_map chs.h).get? chs.c = none := by
      rw [List.get?_eq_none]
      omega
    rw [hnone]

/-- C10 witness: on a disk whose head-0 map holds one track, master_sector at
cylinder 1 (= the map length) panics instead of returning SeekError. -/
theorem C10_witness :
    DiskImage.master_sector exDisk10 ⟨1, 0, 1⟩ exSd = .panic :=
  (C10_master_sector_boundary exDisk10 ⟨1, 0, 1⟩ exSd).2 (by decide) (by decide)

/-- C2 counterexample: on a concrete ByteStream track, read_sector with
DataBlock scope hits the source's `unimplemented!` — a panic — and in
particular does not return the ParameterError value the claim states. -/
theorem C2_counterexample :
    (TrackData.read_sector exTrack2 ⟨0, 0, 1⟩ none .DataBlock false).1 = .panic ∧
    (TrackData.read_sector exTrack2 ⟨0, 0, 1⟩ none .DataBlock false).1 ≠
      .err .ParameterError := by
  constructor
  · rfl
  · decide

/-- C2 amended: for every ByteStream track and any chs, n and debug flag,
read_sector with DataBlock scope panics (the source arm is `unimplemented!`);
it does not return an error value. -/
theorem C2_bytestream_datablock_panics (encoding : DiskDataEncoding)
    (data_rate : DiskDataRate) (cylinder head : Nat)
    (sectors : List TrackSectorIndex) (data weak_mask : List Nat)
    (chs : DiskChs) (n : Option Nat) (debug : Bool) :
    TrackData.read_sector
        (.ByteStream encoding data_rate cylinder head sectors data weak_mask)
        chs n .DataBlock debug
      = (.panic, .ByteStream encoding data_rate cylinder head sectors data weak_mask) := rfl

/-- C4: next_sector_on_track never reads the requested sector number — the
source computes geom_chs.get_next_sector(&geom_chs) of the geometry CHS
itself — so its result is the same for every incoming sector, and on a disk
with geometry 40×2 whose nine-sector track sits at (0,0) it returns None both
at sector 5 (where the claim expects Some(CHS(0,0,6))) and at sector 9. -/
theorem C4_next_sector_ignores_requested_sector :
    (∀ (di : DiskImage) (c h s s' : Nat),
      di.next_sector_on_track ⟨c, h, s⟩ = di.next_sector_on_track ⟨c, h, s'⟩) ∧
    DiskImage.next_sector_on_track exDisk4 ⟨0, 0, 5⟩ = .ok none ∧
    DiskImage.next_sector_on_track exDisk4 ⟨0, 0, 9⟩ = .ok none := by
  refine ⟨fun di c h s s' => rfl, by decide, by decide⟩

/-- C1: on a BitStream track, when the sector located for chs (and n) carries
an invalid address CRC and debug is false, read_sector returns Ok — not Err —
with data_len 0, an empty read_buf and address_crc_error set, leaving the
track untouched. -/
theorem C1_bad_address_crc_read (encoding : DiskDataEncoding) (data_rate : DiskDataRate)
    (data_clock cylinder head : Nat) (dec : MfmDecoder)
    (metadata : DiskStructureMetadata) (sector_ids : List DiskChsn)
    (chs : DiskChs) (n : Option Nat) (scope : RwSectorScope)
    (sector_offset : Nat) (chsn : DiskChsn) (dcv del : Bool)
    (hfind : TrackData.get_sector_bit_index
        (.BitStream encoding data_rate data_clock cylinder head (.Mfm dec)
          metadata sector_ids) chs n
      = some (sector_offset, chsn, false, dcv, del)) :
    TrackData.read_sector
        (.BitStream encoding data_rate data_clock cylinder head (.Mfm dec)
          metadata sector_ids) chs n scope false
      = (.ok { data_idx := 0, data_len := 0, read_buf := [], deleted_mark := false,
               not_found := false, address_crc_error := true, data_crc_error := false,
               wrong_cylinder := false, wrong_head := false },
         .BitStream encoding data_rate data_clock cylinder head (.Mfm dec)
           metadata sector_ids) := by
  unfold TrackData.read_sector
  rw [hfind]
  simp

/-- C1 witness: reading the bad-address-CRC sector of exTrack1 in non-debug
mode yields Ok with data_len 0, empty buffer and the flag set. -/
theorem C1_witness :
    TrackData.read_sector exTrack1 ⟨0, 0, 1⟩ none .DataOnly false
      = (.ok { data_idx := 0, data_len := 0, read_buf := [], deleted_mark := false,
               not_found := false, address_crc_error := true, data_crc_error := false,
               wrong_cylinder := false, wrong_head := false }, exTrack1) :=
  C1_bad_address_crc_read .Mfm .Rate500Kbps 500000 0 0 ⟨[], 0⟩ exMeta1
    [⟨0, 0, 1, 0⟩] ⟨0, 0, 1⟩ none .DataOnly 0 ⟨0, 0, 1, 0⟩ true false (by decide)

/-- Helper: with no record matching the requested sector id, the ByteStream
read loop leaves its state unchanged. -/
theorem read_bytestream_go_of_no_match (chs : DiskChs) (data : List Nat)
    (sectors : List TrackSectorIndex) (st : ByteReadState)
    (h : ∀ si ∈ sectors, si.sector_id ≠ chs.s) :
    read_sector_bytestream_go chs data sectors st = st := by
  induction sectors generalizing st with
  | nil => rfl
  | cons x rest ih =>
    have hx : x.sector_id ≠ chs.s := h x (List.mem_cons_self x rest)
    simp only [read_sector_bytestream_go, if_neg hx]
    exact ih st (fun si hsi => h si (List.mem_cons_of_mem x hsi))

/-- Helper: when exactly one record matches the requested sector id, the
ByteStream read loop performs exactly that record's update. -/
theorem read_bytestream_go_of_single_match (chs : DiskChs) (data : List Nat)
    (sectors : List TrackSectorIndex) (si : TrackSectorIndex) (st : ByteReadState)
    (h : sectors.filter (fun sj => decide (sj.sector_id = chs.s)) = [si]) :
    read_sector_bytestream_go chs data sectors st =
      { data_len := min (si.t_idx + si.len) data.length - si.t_idx
        read_vec := st.read_vec ++
          (data.drop si.t_idx).take (min (si.t_idx + si.len) data.length - si.t_idx)
        data_crc_error := st.data_crc_error || si.data_crc_error
        wrong_cylinder := st.wrong_cylinder || decide (si.cylinder_id ≠ chs.c)
        deleted_mark := st.deleted_mark || si.deleted_mark } := by
  induction sectors generalizing st with
  | nil => simp at h
  | cons x rest ih =>
    by_cases hx : x.sector_id = chs.s
    · rw [List.filter_cons_of_pos (by simpa using hx)] at h
      injection h with h1 h2
      subst h1
      simp only [read_sector_bytestream_go, if_pos hx]
      refine read_bytestream_go_of_no_match chs data rest _ ?_
      intro sj hsj
      have := List.filter_eq_nil_iff.mp h2 sj hsj
      simpa using this
    · rw [List.filter_cons_of_neg (by simpa using hx)] at h
      simp only [read_sector_bytestream_go, if_neg hx]
      exact ih st h

/-- Helper: when no IDAM's stored CHS equals the sought chs, the sector lookup
latch never sets and the scan returns none. -/
theorem gsbi_go_of_no_idam_match (seek_chs : DiskChs) (n : Option Nat)
    (items : List DiskStructureMetadataItem) (idam_chsn : Option DiskChsn)
    (h : ∀ mdi ∈ items, ∀ mc, mdi.chsn = some mc → mc.toChs ≠ seek_chs) :
    get_sector_bit_index_go seek_chs n false idam_chsn items = none := by
  induction items generalizing idam_chsn with
  | nil => rfl
  | cons mdi rest ih =>
    have hrest : ∀ x ∈ rest, ∀ mc, x.chsn = some mc → mc.toChs ≠ seek_chs :=
      fun x hx => h x (List.mem_cons_of_mem _ hx)
    obtain ⟨et, sta, en, ch⟩ := mdi
    cases et with
    | Marker kind v =>
      cases kind with
      | Idam =>
        cases ch with
        | none =>
          simp only [get_sector_bit_index_go]
          exact ih _ hrest
        | some mc =>
          have hne : mc.toChs ≠ seek_chs :=
            h _ (List.mem_cons_self _ _) mc rfl
          simp only [get_sector_bit_index_go]
          rw [if_neg (fun hc => hne hc.1)]
          exact ih _ hrest
      | Iam =>
        simp only [get_sector_bit_index_go]
        exact ih _ hrest
      | Dam =>
        simp only [get_sector_bit_index_go]
        exact ih _ hrest
      | Ddam =>
        simp only [get_sector_bit_index_go]
        exact ih _ hrest
    | Data a d del =>
      simp only [get_sector_bit_index_go, Bool.false_eq_true, if_false]
      exact ih _ hrest
    | Gap =>
      simp only [get_sector_bit_index_go]
      exact ih _ hrest

/-- C3 counterexample: on a BitStream track whose single IDAM stores C = 1
while the physical cylinder is 0, read_sector addressed by the physical CHS
(0,0,1) fails with DataError — the claim's "still returns the sector payload
with wrong_cylinder = true" does not happen, because the BitStream lookup
compares the IDAM's full CHS against the request. -/
theorem C3_counterexample :
    TrackData.read_sector exTrack3 ⟨0, 0, 1⟩ none .DataOnly false
      = (.err .DataError, exTrack3) := by decide

/-- C3 amended: on a ByteStream track, read_sector matches a sector by its id
alone, returns its payload and sets wrong_cylinder when the stored cylinder_id
differs — but wrong_head is always false (the read path never inspects the
head).  On a BitStream track the lookup compares the IDAM's full stored CHS
with the request, so a sector whose stored C or H differs from the request is
simply not matched: when no IDAM matches exactly, read_sector fails with
DataError instead of returning the payload. -/
theorem C3_wrong_cylinder_semantics :
    (∀ (encoding : DiskDataEncoding) (data_rate : DiskDataRate) (cylinder head : Nat)
       (sectors : List TrackSectorIndex) (data weak_mask : List Nat)
       (chs : DiskChs) (n : Option Nat) (debug : Bool) (si : TrackSectorIndex),
      sectors.filter (fun sj => decide (sj.sector_id = chs.s)) = [si] →
      si.t_idx + si.len ≤ data.length →
      si.cylinder_id ≠ chs.c →
      TrackData.read_sector
          (.ByteStream encoding data_rate cylinder head sectors data weak_mask)
          chs n .DataOnly debug
        = (.ok { data_idx := 0, data_len := si.len,
                 read_buf := (data.drop si.t_idx).take si.len,
                 deleted_mark := si.deleted_mark, not_found := false,
                 address_crc_error := false, data_crc_error := si.data_crc_error,
                 wrong_cylinder := true, wrong_head := false },
           .ByteStream encoding data_rate cylinder head sectors data weak_mask)) ∧
    (∀ (encoding : DiskDataEncoding) (data_rate : DiskDataRate)
       (data_clock cylinder head : Nat) (dec : MfmDecoder)
       (metadata : DiskStructureMetadata) (sector_ids : List DiskChsn)
       (chs : DiskChs) (n : Option Nat) (scope : RwSectorScope) (debug : Bool),
      (∀ mdi ∈ metadata.items, ∀ mc, mdi.chsn = some mc → mc.toChs ≠ chs) →
      TrackData.read_sector
          (.BitStream encoding data_rate data_clock cylinder head (.Mfm dec)
            metadata sector_ids) chs n scope debug
        = (.err .DataError,
           .BitStream encoding data_rate data_clock cylinder head (.Mfm dec)
             metadata sector_ids)) := by
  constructor
  · intro encoding data_rate cylinder head sectors data weak_mask chs n debug si
      hfilter hlen hcyl
    have hmin : min (si.t_idx + si.len) data.length = si.t_idx + si.len :=
      min_eq_left hlen
    unfold TrackData.read_sector
    simp only [read_bytestream_go_of_single_match chs data sectors si _ hfilter]
    simp [hmin, hcyl]
  · intro encoding data_rate data_clock cylinder head dec metadata sector_ids
      chs n scope debug hno
    have hfind : TrackData.get_sector_bit_index
        (.BitStream encoding data_rate data_clock cylinder head (.Mfm dec)
          metadata sector_ids) chs n = none := by
      simp only [TrackData.get_sector_bit_index]
      exact gsbi_go_of_no_idam_match chs n metadata.items none hno
    unfold TrackData.read_sector
    rw [hfind]

/-- C3 witness: on a ByteStream track whose sector record stores cylinder_id 7
the physical read at (0,0,1) returns the payload with wrong_cylinder = true,
and on the exTrack3 BitStream track the cylinder-mismatched sector yields
DataError. -/
theorem C3_witness :
    (TrackData.read_sector exTrack3b ⟨0, 0, 1⟩ none .DataOnly false
      = (.ok { data_idx := 0, data_len := 4, read_buf := [9, 9, 9, 9],
               deleted_mark := false, not_found := false, address_crc_error := false,
               data_crc_error := false, wrong_cylinder := true, wrong_head := false },
         exTrack3b)) ∧
    (TrackData.read_sector exTrack3 ⟨0, 0, 2⟩ none .DataOnly false
      = (.err .DataError, exTrack3)) := by
  constructor
  · exact C3_wrong_cylinder_semantics.1 .Mfm .Rate500Kbps 0 0 _ _ _ ⟨0, 0, 1⟩ none false
      ⟨1, 7, 0, 0, 0, 4, false, false, false⟩ (by decide) (by decide) (by decide)
  · refine C3_wrong_cylinder_semantics.2 .Mfm .Rate500Kbps 500000 0 0 ⟨[], 0⟩ _ _
      ⟨0, 0, 2⟩ none .DataOnly false ?_
    intro mdi hmdi mc hmc
    fin_cases hmdi <;>
      · injection hmc with hmc
        subst hmc
        decide

/-- C5 counterexample: on a BitStream track whose single sector has IDAM
N = 2, read_sector with n_override = Some 3 and debug = true fails with
DataError — it does not return 128<<3 decoded bytes, because the sector lookup
itself filters on N even in debug mode. -/
theorem C5_counterexample :
    (TrackData.read_sector exTrack5 ⟨0, 0, 1⟩ (some 3) .DataOnly true).1
      = .err .DataError := by decide

/-- C5 amended: with n_override = Some x the sector lookup only matches IDAMs
whose stored N equals x, in debug and non-debug mode alike, so a track with no
such IDAM yields DataError for every debug/scope combination; when the lookup
does succeed (necessarily with a matching IDAM) and debug = true, read_sector
returns exactly 128<<x decoded bytes. -/
theorem C5_n_override_semantics :
    (∀ (encoding : DiskDataEncoding) (data_rate : DiskDataRate)
       (data_clock cylinder head : Nat) (dec : MfmDecoder)
       (metadata : DiskStructureMetadata) (sector_ids : List DiskChsn)
       (chs : DiskChs) (x : Nat) (scope : RwSectorScope) (debug : Bool),
      TrackData.get_sector_bit_index
          (.BitStream encoding data_rate data_clock cylinder head (.Mfm dec)
            metadata sector_ids) chs (some x) = none →
      TrackData.read_sector
          (.BitStream encoding data_rate data_clock cylinder head (.Mfm dec)
            metadata sector_ids) chs (some x) scope debug
        = (.err .DataError,
           .BitStream encoding data_rate data_clock cylinder head (.Mfm dec)
             metadata sector_ids)) ∧
    (∀ (encoding : DiskDataEncoding) (data_rate : DiskDataRate)
       (data_clock cylinder head : Nat) (dec : MfmDecoder)
       (metadata : DiskStructureMetadata) (sector_ids : List DiskChsn)
       (chs : DiskChs) (x : Nat) (sector_offset : Nat) (chsn : DiskChsn)
       (dcv del : Bool) (buf : List Nat) (dec2 : MfmDecoder),
      TrackData.get_sector_bit_index
          (.BitStream encoding data_rate data_clock cylinder head (.Mfm dec)
            metadata sector_ids) chs (some x)
        = some (sector_offset, chsn, true, dcv, del) →
      (dec.seekStart ((sector_offset >>> 1) + 32)).read_exact (DiskChsn.n_to_bytes x)
        = some (buf, dec2) →
      TrackData.read_sector
          (.BitStream encoding data_rate data_clock cylinder head (.Mfm dec)
            metadata sector_ids) chs (some x) .DataOnly true
        = (.ok { data_idx := 0, data_len := DiskChsn.n_to_bytes x, read_buf := buf,
                 deleted_mark := del, not_found := false, address_crc_error := false,
                 data_crc_error := !dcv, wrong_cylinder := false, wrong_head := false },
           .BitStream encoding data_rate data_clock cylinder head (.Mfm dec2)
             metadata sector_ids)) := by
  constructor
  · intro encoding data_rate data_clock cylinder head dec metadata sector_ids
      chs x scope debug hfind
    unfold TrackData.read_sector
    rw [hfind]
  · intro encoding data_rate data_clock cylinder head dec metadata sector_ids
      chs x sector_offset chsn dcv del buf dec2 hfind hread
    unfold TrackData.read_sector
    rw [hfind]
    simp only [Bool.not_true, Nat.add_zero]
    simp [hread]

set_option maxRecDepth 4000 in
/-- C5 witness: a mismatched override Some 0 on the N = 2 track of exTrack5
fails with DataError even in debug mode, and the matching override Some 2 in
debug mode returns 512 bytes. -/
theorem C5_witness :
    (TrackData.read_sector exTrack5 ⟨0, 0, 1⟩ (some 0) .DataOnly true
      = (.err .DataError, exTrack5)) ∧
    (TrackData.read_sector exTrack5 ⟨0, 0, 1⟩ (some 2) .DataOnly true
      = (.ok { data_idx := 0, data_len := 512, read_buf := List.replicate 512 7,
               deleted_mark := false, not_found := false, address_crc_error := false,
               data_crc_error := false, wrong_cylinder := false, wrong_head := false },
         .BitStream .Mfm .Rate500Kbps 500000 0 0 (.Mfm ⟨List.replicate 516 7, 8256⟩)
           ⟨[⟨.Marker .Idam none, 0, 0, some ⟨0, 0, 1, 2⟩⟩,
             ⟨.Data true true false, 0, 8256, some ⟨0, 0, 1, 2⟩⟩]⟩
           [⟨0, 0, 1, 2⟩])) := by
  constructor
  · exact C5_n_override_semantics.1 .Mfm .Rate500Kbps 500000 0 0 ⟨List.replicate 516 7, 0⟩
      _ _ ⟨0, 0, 1⟩ 0 .DataOnly true (by decide)
  · exact C5_n_override_semantics.2 .Mfm .Rate500Kbps 500000 0 0 ⟨List.replicate 516 7, 0⟩
      _ _ ⟨0, 0, 1⟩ 2 0 ⟨0, 0, 1, 2⟩ true false (List.replicate 512 7)
      ⟨List.replicate 516 7, 8256⟩ (by decide) (by decide)

/-- C6 counterexample: on a BitStream sector whose address CRC is invalid,
write_sector in non-debug mode with a 5-byte buffer (N = 0 expects 128)
returns Ok with the address_crc_error flag — not the ParameterError the claim
states for every sector. -/
theorem C6_counterexample :
    TrackData.write_sector exTrack6bad ⟨0, 0, 1⟩ none [1, 2, 3, 4, 5] .DataOnly false false
      = (.ok { not_found := false, address_crc_error := true,
               wrong_cylinder := false, wrong_head := false }, exTrack6bad) ∧
    (TrackData.write_sector exTrack6bad ⟨0, 0, 1⟩ none [1, 2, 3, 4, 5] .DataOnly false false).1
      ≠ .err .ParameterError := by
  constructor
  · decide
  · decide

/-- C6 amended: on a BitStream track sector whose address CRC is valid (or
with debug = true; here stated with a valid CRC and any debug flag), a
write_sector call with n_override = None and a buffer whose length differs
from 128<<N returns ParameterError before touching the stream, so the track —
and hence its get_hash digest — is unchanged. -/
theorem C6_write_buffer_size_mismatch (encoding : DiskDataEncoding)
    (data_rate : DiskDataRate) (data_clock cylinder head : Nat) (dec : MfmDecoder)
    (metadata : DiskStructureMetadata) (sector_ids : List DiskChsn)
    (chs : DiskChs) (write_data : List Nat) (scope : RwSectorScope)
    (write_deleted debug : Bool) (sector_offset : Nat) (chsn : DiskChsn)
    (dcv del : Bool)
    (hfind : TrackData.get_sector_bit_index
        (.BitStream encoding data_rate data_clock cylinder head (.Mfm dec)
          metadata sector_ids) chs none
      = some (sector_offset, chsn, true, dcv, del))
    (hlen : write_data.length ≠ DiskChsn.n_to_bytes chsn.n) :
    TrackData.write_sector
        (.BitStream encoding data_rate data_clock cylinder head (.Mfm dec)
          metadata sector_ids) chs none write_data scope write_deleted debug
      = (.err .ParameterError,
         .BitStream encoding data_rate data_clock cylinder head (.Mfm dec)
           metadata sector_ids) ∧
    (TrackData.write_sector
        (.BitStream encoding data_rate data_clock cylinder head (.Mfm dec)
          metadata sector_ids) chs none write_data scope write_deleted debug).2.get_hash
      = TrackData.get_hash
          (.BitStream encoding data_rate data_clock cylinder head (.Mfm dec)
            metadata sector_ids) := by
  have h1 : TrackData.write_sector
      (.BitStream encoding data_rate data_clock cylinder head (.Mfm dec)
        metadata sector_ids) chs none write_data scope write_deleted debug
      = (.err .ParameterError,
         .BitStream encoding data_rate data_clock cylinder head (.Mfm dec)
           metadata sector_ids) := by
    unfold TrackData.write_sector
    rw [hfind]
    simp [Ne.symm hlen]
  exact ⟨h1, by rw [h1]⟩

/-- C6 witness: a 5-byte buffer into the valid N = 0 (128-byte) sector of
exTrack6 with n_override = None yields ParameterError and an unchanged hash. -/
theorem C6_witness :
    TrackData.write_sector exTrack6 ⟨0, 0, 1⟩ none [1, 2, 3, 4, 5] .DataOnly false false
      = (.err .ParameterError, exTrack6) ∧
    (TrackData.write_sector exTrack6 ⟨0, 0, 1⟩ none [1, 2, 3, 4, 5]
        .DataOnly false false).2.get_hash = exTrack6.get_hash :=
  C6_write_buffer_size_mismatch .Mfm .Rate500Kbps 500000 0 0 ⟨List.replicate 10 0, 0⟩
    ⟨[⟨.Marker .Idam none, 0, 0, some ⟨0, 0, 1, 0⟩⟩,
      ⟨.Data true true false, 0, 2144, some ⟨0, 0, 1, 0⟩⟩]⟩
    [⟨0, 0, 1, 0⟩] ⟨0, 0, 1⟩ [1, 2, 3, 4, 5] .DataOnly false false 0 ⟨0, 0, 1, 0⟩
    true false (by decide) (by decide)

/-- Helper: the ByteStream read-all loop never pushes sectors_read past eot —
it breaks as soon as the count reaches it. -/
theorem read_all_bytestream_go_sectors_le (data : List Nat) (sdl eot : Nat) :
    ∀ (sectors : List TrackSectorIndex) (st : ReadAllState) (last : Nat),
      st.sectors_read ≤ eot →
      (read_all_bytestream_go data sdl eot sectors (st, last)).1.sectors_read ≤ eot := by
  intro sectors
  induction sectors with
  | nil => intro st last h; exact h
  | cons si rest ih =>
    intro st last h
    simp only [read_all_bytestream_go]
    by_cases hge : st.sectors_read ≥ eot
    · rw [if_pos hge]
      exact h
    · rw [if_neg hge]
      by_cases hov : si.t_idx < last
      · rw [if_pos hov]
        exact ih _ last h
      · rw [if_neg hov]
        refine ih _ _ ?_
        simp only [ReadAllState.sectors_read]
        omega

set_option maxRecDepth 4000 in
/-- C7 counterexample: on a ByteStream track whose first sector already has
id eot = 5 followed by a sector with id 1, read_all_sectors(n=0, eot=5) reads
BOTH sectors (sectors_read = 2) — it does not stop at the sector whose id
equals eot as the claim states, which would read only the first. -/
theorem C7_counterexample :
    (TrackData.read_all_sectors exTrack7ce ⟨0, 0⟩ 0 5).1
      = .ok { not_found := false, sectors_read := 2,
              read_buf := List.replicate 128 5 ++ List.replicate 128 1,
              deleted_mark := false, address_crc_error := false,
              data_crc_error := false } ∧
    (TrackData.read_all_sectors exTrack7ce ⟨0, 0⟩ 0 5).1
      ≠ .ok { not_found := false, sectors_read := 1,
              read_buf := List.replicate 128 5,
              deleted_mark := false, address_crc_error := false,
              data_crc_error := false } := by
  constructor
  · rfl
  · decide

set_option maxRecDepth 10000 in
/-- C7 amended: ByteStream tracks interpret eot as a sector COUNT — the loop
stops once sectors_read reaches eot, so the result never exceeds eot sectors —
while BitStream tracks stop after reading the sector whose id equals eot; on
tracks laid out with sectors 1..9 in ascending order and eot = 5 the two
semantics coincide and both return exactly 5 sectors of 128<<n bytes each, in
ascending order. -/
theorem C7_read_all_sectors_semantics :
    (∀ (encoding : DiskDataEncoding) (data_rate : DiskDataRate) (cylinder head : Nat)
       (sectors : List TrackSectorIndex) (data weak_mask : List Nat)
       (ch : DiskCh) (n eot : Nat) (r : ReadTrackResult) (td' : TrackData),
      TrackData.read_all_sectors
          (.ByteStream encoding data_rate cylinder head sectors data weak_mask) ch n eot
        = (.ok r, td') →
      r.sectors_read ≤ eot) ∧
    (TrackData.read_all_sectors exTrack7bit ⟨0, 0⟩ 0 5).1
      = .ok { not_found := false, sectors_read := 5, read_buf := exExpected7,
              deleted_mark := false, address_crc_error := false,
              data_crc_error := false } ∧
    (TrackData.read_all_sectors exTrack7byte ⟨0, 0⟩ 0 5).1
      = .ok { not_found := false, sectors_read := 5, read_buf := exExpected7,
              deleted_mark := false, address_crc_error := false,
              data_crc_error := false } := by
  refine ⟨?_, by rfl, by rfl⟩
  intro encoding data_rate cylinder head sectors data weak_mask ch n eot r td' h
  unfold TrackData.read_all_sectors TrackData.read_all_sectors_bytestream at h
  rw [Prod.mk.injEq] at h
  obtain ⟨hfst, _⟩ := h
  injection hfst with hr
  subst hr
  exact read_all_bytestream_go_sectors_le data (DiskChsn.n_to_bytes n) eot sectors
    { track_read_vec := [], sectors_read := 0, address_crc_error := false,
      data_crc_error := false, deleted_mark := false, not_found := true } 0
    (Nat.zero_le eot)

set_option maxRecDepth 4000 in
/-- C7 witness: the count-bound of the amended theorem instantiated at the
exTrack7ce read, whose result reads 2 sectors with eot = 5. -/
theorem C7_witness :
    ({ not_found := false, sectors_read := 2,
       read_buf := List.replicate 128 5 ++ List.replicate 128 1,
       deleted_mark := false, address_crc_error := false,
       data_crc_error := false } : ReadTrackResult).sectors_read ≤ 5 :=
  C7_read_all_sectors_semantics.1 .Mfm .Rate500Kbps 0 0
    [⟨5, 0, 0, 0, 0, 128, false, false, false⟩, ⟨1, 0, 0, 128, 0, 128, false, false, false⟩]
    (List.replicate 128 5 ++ List.replicate 128 1) [] ⟨0, 0⟩ 0 5 _ exTrack7ce (by decide)

/-- Helper: every position produced by the empty-track scan is at least the
starting index. -/
theorem emptyPositionsAux_ge (pool : List DiskTrack) :
    ∀ (l : List Nat) (i : Nat) (ps : List Nat),
      emptyPositionsAux pool l i = some ps → ∀ p ∈ ps, i ≤ p := by
  intro l
  induction l with
  | nil =>
    intro i ps h p hp
    simp only [emptyPositionsAux] at h
    injection h with h
    subst h
    simp at hp
  | cons ti rest ih =>
    intro i ps h p hp
    simp only [emptyPositionsAux] at h
    rcases he : trackEmptyAt pool ti with _ | e <;> rw [he] at h
    · exact absurd h (by simp)
    · rcases hr : emptyPositionsAux pool rest (i + 1) with _ | ps' <;> rw [hr] at h
      · exact absurd h (by simp)
      · injection h with h
        subst h
        rcases e with _ | _
        · simp at hp
          have := ih (i + 1) ps' hr p hp
          omega
        · simp at hp
          rcases hp with h1 | h1
          · omega
          · have := ih (i + 1) ps' hr p h1
            omega

/-- Helper: the positions produced by the empty-track scan are strictly
ascending. -/
theorem emptyPositionsAux_pairwise (pool : List DiskTrack) :
    ∀ (l : List Nat) (i : Nat) (ps : List Nat),
      emptyPositionsAux pool l i = some ps → ps.Pairwise (· < ·) := by
  intro l
  induction l with
  | nil =>
    intro i ps h
    simp only [emptyPositionsAux] at h
    injection h with h
    subst h
    exact List.Pairwise.nil
  | cons ti rest ih =>
    intro i ps h
    simp only [emptyPositionsAux] at h
    rcases he : trackEmptyAt pool ti with _ | e <;> rw [he] at h
    · exact absurd h (by simp)
    · rcases hr : emptyPositionsAux pool rest (i + 1) with _ | ps' <;> rw [hr] at h
      · exact absurd h (by simp)
      · injection h with h
        subst h
        rcases e with _ | _
        · simpa using ih (i + 1) ps' hr
        · simp only [if_true]
          refine List.Pairwise.cons ?_ (ih (i + 1) ps' hr)
          intro p hp
          have := emptyPositionsAux_ge pool rest (i + 1) ps' hr p hp
          omega

/-- Helper: inserting an element below everything in the list lands it at the
end. -/
theorem insertDesc_append_of_lt (x : Nat) :
    ∀ (m : List Nat), (∀ y ∈ m, x < y) → insertDesc x m = m ++ [x] := by
  intro m
  induction m with
  | nil => intro _; rfl
  | cons y ys ih =>
    intro h
    have hy : x < y := h y (List.mem_cons_self _ _)
    simp only [insertDesc]
    rw [if_neg (by omega)]
    rw [ih (fun z hz => h z (List.mem_cons_of_mem _ hz))]
    simp

/-- Helper: the descending sort of a strictly ascending list is its reverse
(so the source's descending removal order visits positions right to left). -/
theorem sortDesc_of_pairwise_lt :
    ∀ (l : List Nat), l.Pairwise (· < ·) → sortDesc l = l.reverse := by
  intro l
  induction l with
  | nil => intro _; rfl
  | cons a l ih =>
    intro h
    obtain ⟨h1, h2⟩ := List.pairwise_cons.mp h
    show insertDesc a (List.foldr insertDesc [] l) = (a :: l).reverse
    have hfold : List.foldr insertDesc [] l = sortDesc l := rfl
    rw [hfold, ih h2, insertDesc_append_of_lt a l.reverse
      (fun y hy => h1 y (List.mem_reverse.mp hy))]
    simp

/-- Helper: erasing positions that all lie beyond a list's head leaves the
head in place and erases the shifted positions from the tail. -/
theorem foldr_eraseIdx_cons (i : Nat) (x : Nat) (rest : List Nat) :
    ∀ (ps : List Nat), (∀ p ∈ ps, i + 1 ≤ p) →
      List.foldr (fun p acc => acc.eraseIdx (p - i)) (x :: rest) ps
        = x :: List.foldr (fun p acc => acc.eraseIdx (p - (i + 1))) rest ps := by
  intro ps
  induction ps with
  | nil => intro _; rfl
  | cons p ps ih =>
    intro h
    have hp : i + 1 ≤ p := h p (List.mem_cons_self _ _)
    simp only [List.foldr_cons]
    rw [ih (fun q hq => h q (List.mem_cons_of_mem _ hq))]
    have hsub : p - i = (p - (i + 1)) + 1 := by omega
    rw [hsub]
    rfl

/-- Helper: erasing exactly the empty positions (taken in the right-to-left
order of the shifted fold) from one head's track_map is the same as filtering
the map down to its entries that point at non-empty pool tracks. -/
theorem foldr_eraseIdx_filter (pool : List DiskTrack) :
    ∀ (l : List Nat) (i : Nat) (ps : List Nat),
      emptyPositionsAux pool l i = some ps →
      List.foldr (fun p acc => acc.eraseIdx (p - i)) l ps
        = l.filter (fun ti => trackKeptAt pool ti) := by
  intro l
  induction l with
  | nil =>
    intro i ps h
    simp only [emptyPositionsAux] at h
    injection h with h
    subst h
    rfl
  | cons ti rest ih =>
    intro i ps h
    simp only [emptyPositionsAux] at h
    rcases he : trackEmptyAt pool ti with _ | e <;> rw [he] at h
    · exact absurd h (by simp)
    · rcases hr : emptyPositionsAux pool rest (i + 1) with _ | ps' <;> rw [hr] at h
      · exact absurd h (by simp)
      · injection h with h
        subst h
        have hge : ∀ p ∈ ps', i + 1 ≤ p := emptyPositionsAux_ge pool rest (i + 1) ps' hr
        have hkept : trackKeptAt pool ti = !e := by
          simp [trackKeptAt, he]
        rcases e with _ | _
        · simp only [Bool.false_eq_true, if_false]
          rw [foldr_eraseIdx_cons i ti rest ps' hge]
          rw [ih (i + 1) ps' hr]
          rw [List.filter_cons_of_pos (by simp [hkept])]
        · simp only [if_true, List.foldr_cons]
          rw [foldr_eraseIdx_cons i ti rest ps' hge]
          rw [ih (i + 1) ps' hr]
          have hz : i - i = 0 := by omega
          rw [hz]
          rw [List.filter_cons_of_neg (by simp [hkept])]
          rfl

/-- C9 amended: normalisation triggers exactly when the number of empty mapped
tracks reaches ⌊track_ct / 2⌋ — integer division, so for odd counts this fires
already strictly below 50% — and when it does, exactly the empty tracks'
entries are removed from each head's track_map while track_pool and every
other DiskImage field are unchanged; below that integer threshold the image is
returned untouched. -/
theorem C9_normalize_threshold (di : DiskImage) (ps0 ps1 : List Nat)
    (h0 : emptyPositionsAux di.track_pool di.track_map0 0 = some ps0)
    (h1 : emptyPositionsAux di.track_pool di.track_map1 0 = some ps1) :
    DiskImage.normalize di =
      .ok (if ps0.length + ps1.length ≥ (di.track_map0.length + di.track_map1.length) / 2 then
            { di with
              track_map0 := di.track_map0.filter (fun ti => trackKeptAt di.track_pool ti)
              track_map1 := di.track_map1.filter (fun ti => trackKeptAt di.track_pool ti) }
          else di) := by
  have e0 : (sortDesc ps0).foldl (fun acc p => acc.eraseIdx p) di.track_map0
      = di.track_map0.filter (fun ti => trackKeptAt di.track_pool ti) := by
    rw [sortDesc_of_pairwise_lt ps0 (emptyPositionsAux_pairwise di.track_pool _ 0 ps0 h0)]
    rw [List.foldl_reverse]
    have h := foldr_eraseIdx_filter di.track_pool di.track_map0 0 ps0 h0
    simpa [Nat.sub_zero] using h
  have e1 : (sortDesc ps1).foldl (fun acc p => acc.eraseIdx p) di.track_map1
      = di.track_map1.filter (fun ti => trackKeptAt di.track_pool ti) := by
    rw [sortDesc_of_pairwise_lt ps1 (emptyPositionsAux_pairwise di.track_pool _ 0 ps1 h1)]
    rw [List.foldl_reverse]
    have h := foldr_eraseIdx_filter di.track_pool di.track_map1 0 ps1 h1
    simpa [Nat.sub_zero] using h
  unfold DiskImage.normalize DiskImage.remove_empty_tracks
  simp only [h0, h1]
  by_cases hthr : ps0.length + ps1.length ≥ (di.track_map0.length + di.track_map1.length) / 2
  · rw [if_pos hthr, if_pos hthr, e0, e1]
  · rw [if_neg hthr, if_neg hthr]

/-- C9 witness: normalising the five-track exDisk9 (two empty tracks) removes
exactly the two empty entries from track_map0, leaving the pool and every
other field unchanged. -/
theorem C9_witness :
    DiskImage.normalize exDisk9 = .ok { exDisk9 with track_map0 := [0, 1, 2] } := by
  have h := C9_normalize_threshold exDisk9 [3, 4] [] (by decide) (by decide)
  rw [h]
  decide

/-- C9 counterexample: exDisk9 has 2 empty tracks of 5 — strictly below 50%
(2·2 < 5) — yet normalize nevertheless rewrites track_map0, because the
source's threshold is the integer division track_ct / 2 = 2; the claim's
"below that threshold track_map is also unchanged" is false. -/
theorem C9_counterexample :
    2 * 2 < 5 ∧
    DiskImage.normalize exDisk9 = .ok { exDisk9 with track_map0 := [0, 1, 2] } ∧
    ({ exDisk9 with track_map0 := [0, 1, 2] } : DiskImage).track_map0 ≠ exDisk9.track_map0 := by
  exact ⟨by decide, by decide, by decide⟩

end FluxFox
